import Mathlib

/-!
Verification development for the WebRTC–SIP gateway signaling engine.

The repository contains two revisions of the gateway class:
* `src/server/plugins/sipGateway.js` — embedded below in namespace `SipGatewayJs`;
* `src/unnamed/part_000` — an alternate revision of the same class, embedded in
  namespace `SipGatewayAlt` for the methods where the two revisions differ
  (`cleanupSession`, `hangup`).

The gateway's mutable objects (`this.sessions`, `this.inviteTransactions`,
metrics counters) are modelled as explicit state; JavaScript `Map` objects are
modelled as association lists with `Map` get/set/delete/size semantics.
Externally visible actions (UDP sends, media-relay RPC, event emission) are
modelled as an explicit effect list returned alongside the new state.
Non-deterministic inputs of the original code (timestamps, random bytes,
media-relay RPC outcomes, SDP validation outcomes) are passed as parameters.
-/

set_option autoImplicit false

namespace SipSpec

/-! ### Association-list model of a JavaScript `Map` -/

/-- `Map.get(k)`: the value at the first matching key, if any. -/
def mapGet {α : Type} (m : List (String × α)) (k : String) : Option α :=
  match m with
  | [] => none
  | p :: rest => if p.1 = k then some p.2 else mapGet rest k

/-- `Map.set(k, v)`: replace in place when the key is present, append otherwise
(so `size` grows only on a fresh key, as for a JavaScript `Map`). -/
def mapSet {α : Type} (m : List (String × α)) (k : String) (v : α) :
    List (String × α) :=
  if m.any (fun p => p.1 = k) then
    m.map (fun p => if p.1 = k then (k, v) else p)
  else
    m ++ [(k, v)]

/-- `Map.delete(k)`: drop every entry at the key. -/
def mapDelete {α : Type} (m : List (String × α)) (k : String) :
    List (String × α) :=
  m.filter (fun p => decide (p.1 ≠ k))

/-! ### Common wire / data model -/

/-- The UDP datagram source, Node's `rinfo`. -/
structure Rinfo where
  address : String
  port : Nat
deriving DecidableEq, Repr

/-- `session.direction`. -/
inductive Direction where
  | outgoing
  | incoming
deriving DecidableEq, Repr

/-- `session.state` values used by the gateway. -/
inductive SessionState where
  | calling
  | ringing
  | answered
  | established
  | terminating
deriving DecidableEq, Repr

/-- An inbound SIP request, reduced to the fields the embedded methods read:
the start line, the dialog-identifying headers, the branch parameter matched
inside the top Via by `/branch=([^;\s>]+)/`, and the body.  An absent branch
renders as the string `"null"` inside a template literal. -/
structure SipRequest where
  method : String
  uri : String
  callId : String
  cseq : String
  branch : Option String
  fromH : String
  toH : String
  body : Option String
deriving DecidableEq, Repr

/-- The INVITE server-transaction key, the template literal
`` `${callId}-${cseq}-${branch}` `` from `handleInvite` and `sendResponse`. -/
def inviteTransactionKey (req : SipRequest) : String :=
  req.callId ++ "-" ++ req.cseq ++ "-" ++ req.branch.getD "null"

/-- The capture of `/tag=([^;\s>]+)/`: the characters after the first `tag=`
up to the first `;`, blank or `>`, required non-empty. -/
def extractTag (h : String) : Option String :=
  match h.splitOn "tag=" with
  | _ :: rest :: _ =>
    let cap := (rest.toList.takeWhile fun c => !(c == ';' || c == ' ' || c == '>')).asString
    if cap.isEmpty then none else some cap
  | _ => none

/-- The capture of `/<([^>]+)>/`: a non-empty run between `<` and a closing `>`. -/
def extractAngleUri (h : String) : Option String :=
  match h.splitOn "<" with
  | _ :: rest :: _ =>
    let cap := (rest.toList.takeWhile fun c => !(c == '>')).asString
    if cap.isEmpty || cap.length == rest.length then none else some cap
  | _ => none

/-- Placeholder for dereferencing `session.sipRequest` on a session that never
stored one (outgoing dialogs); the embedded methods only reach it for
incoming dialogs, which always store their origin request. -/
def emptyRequest : SipRequest :=
  { method := "", uri := "", callId := "", cseq := "", branch := none,
    fromH := "", toH := "", body := none }

/-- A call dialog: the value stored in `this.sessions`.  Fields are the union
of what the two revisions store. -/
structure Session where
  direction : Direction
  state : SessionState
  fromTag : String
  toTag : Option String
  cseq : Nat
  targetUri : Option String
  viaBranch : Option String
  rinfo : Option Rinfo
  sipRequest : Option SipRequest
  fromUri : Option String
  transactionKey : Option String
  retransmit200Timer : Bool
  ackTimeoutTimer : Bool
  ackReceived : Bool
  webrtcId : Option String
deriving DecidableEq, Repr

/-- The response remembered by an INVITE server transaction (`lastResponse`). -/
structure LastResponse where
  status : Nat
  reason : String
  body : Option String
deriving DecidableEq, Repr

/-- The value stored in `this.inviteTransactions`. -/
structure InviteTransaction where
  callId : String
  lastResponse : Option LastResponse
deriving DecidableEq, Repr

/-- The configuration fields the embedded methods read. -/
structure GatewayConfig where
  sipServerHost : String
  sipServerPort : Nat
  maxConcurrentSessions : Nat
  advertiseIP : String
  localSipPort : Nat
  displayName : String
  sipDomain : String
deriving DecidableEq, Repr

/-- The gateway's mutable state: the two stores plus the metrics counters the
embedded methods touch. -/
structure Gateway where
  config : GatewayConfig
  sessions : List (String × Session)
  inviteTransactions : List (String × InviteTransaction)
  activeSessions : Nat
  totalCalls : Nat
  failedCalls : Nat
  retriedInvites : Nat
  reInvites : Nat
deriving DecidableEq, Repr

/-- Externally visible actions produced by a method call. -/
inductive Effect where
  | sendResponse (status : Nat) (reason : String) (body : Option String)
  | sendRequest (method : String) (uri : String) (host : String) (port : Nat)
      (branch : String) (fromH : String) (toH : String) (cseq : Nat)
  | relayOffer (callId : String)
  | relayAnswer (callId : String)
  | relayDelete (callId : String) (fromTag : String) (toTag : Option String)
  | emitEvent (name : String)
deriving DecidableEq, Repr

/-- The statuses of the responses inside an effect list. -/
def statusesOf (es : List Effect) : List Nat :=
  es.filterMap fun e =>
    match e with
    | Effect.sendResponse s _ _ => some s
    | _ => none

/-- How many media-relay `delete` operations an effect list performs. -/
def relayDeleteCount (es : List Effect) : Nat :=
  (es.filterMap fun e =>
    match e with
    | Effect.relayDelete c f t => some (c, f, t)
    | _ => none).length

/-- Requests emitted with a given method inside an effect list. -/
def requestsOf (method : String) (es : List Effect) : List Effect :=
  es.filter fun e =>
    match e with
    | Effect.sendRequest m _ _ _ _ _ _ _ => decide (m = method)
    | _ => false

/-! ### NAT fixup model

`handleNATForRequest` rewrites the *top* Via header string in place.  The
embedding represents that string by the components the code reads and writes:
the sent-by host and optional port matched by
`/SIP\/2\.0\/UDP\s+([^:;]+)(?::(\d+))?/`, the `rport` parameter (absent, bare
token, or valued — `includes('rport')` and `includes('rport=')` distinguish
the three), and the optional `received=` parameter. -/

/-- State of the `rport` parameter inside the top Via. -/
inductive RportParam where
  | absent
  | bare
  | value (n : Nat)
deriving DecidableEq, Repr

/-- The components of the top Via header that `handleNATForRequest` touches. -/
structure ViaTop where
  host : String
  port : Option Nat
  rport : RportParam
  received : Option String
deriving DecidableEq, Repr

namespace SipGatewayJs

/-! Embedding of `src/server/plugins/sipGateway.js`. -/

/-- RFC 3261 timer values from the constructor: `this.T1 = 500`. -/
def T1 : Nat := 500

/-- `this.T2 = 4000`. -/
def T2 : Nat := 4000

/-- `this.TIMER_H = 64 * this.T1`. -/
def TIMER_H : Nat := 64 * T1

/-- `sessionData.maxRetransmits = 7` set in `answerSipCall`. -/
def maxRetransmits : Nat := 7

/-- `handleNATForRequest` (lines 280–320, identical in src/unnamed/part_000):
when the Via host/port differ from the datagram source and the Via carries the
`rport` token, set `rport=<source port>` and append `received=<source
address>` unless a `received=` is already present. -/
def handleNATForRequest (v : ViaTop) (rinfo : Rinfo) : ViaTop :=
  let viaPort := v.port.getD 5060
  if v.host ≠ rinfo.address ∨ viaPort ≠ rinfo.port then
    if v.rport ≠ RportParam.absent then
      let v1 := { v with rport := RportParam.value rinfo.port }
      if v1.received = none then { v1 with received := some rinfo.address } else v1
    else v
  else v

/-- The `retransmit200OK` timer closure from `answerSipCall` (lines
1074–1099): scheduled first after `T1`; at each firing it stops when the
acknowledgement has arrived or `retransmit200Count` has reached
`maxRetransmits`, otherwise it retransmits the `200 OK` and re-arms itself
after `min(interval * 2, T2)`.  `stopAt` is the instant at which the pending
timer is cleared from outside the closure — by `handleAck` on acknowledgement
arrival or by the Timer-H cleanup path — so a firing scheduled at `t` happens
only when `t < stopAt`.  The returned list holds the firing instants,
measured from the initial `200 OK`. -/
def retransmitLoop (stopAt now interval count fuel : Nat) : List Nat :=
  match fuel with
  | 0 => []
  | Nat.succ fuel' =>
    let t := now + interval
    if stopAt ≤ t then []
    else if maxRetransmits ≤ count then []
    else t :: retransmitLoop stopAt t (min (interval * 2) T2) (count + 1) fuel'

/-- The instants of the 2xx retransmissions for an incoming dialog whose
retransmit timer is cleared at `stopAt`, with the initial values set by
`answerSipCall`: count `0`, interval `T1`. -/
def retransmit200Schedule (stopAt : Nat) : List Nat :=
  retransmitLoop stopAt 0 T1 0 (maxRetransmits + 1)

/-- `sendResponse` (lines 607–661, identical in src/unnamed/part_000): emit
the response over UDP and, when the request's INVITE server-transaction key is
known, remember `{status, reason, body}` as that transaction's
`lastResponse` — unconditionally, whatever the status. -/
def sendResponse (g : Gateway) (req : SipRequest) (status : Nat)
    (reason : String) (body : Option String) : Gateway × Effect :=
  let tk := inviteTransactionKey req
  let g' :=
    match mapGet g.inviteTransactions tk with
    | some t =>
      { g with
        inviteTransactions :=
          mapSet g.inviteTransactions tk
            { t with lastResponse := some ⟨status, reason, body⟩ } }
    | none => g
  (g', Effect.sendResponse status reason body)

/-- The outcomes of the non-deterministic steps inside the INVITE path:
`sdpValid` is the verdict of `validateSDP` on the request body, `offerResult`
the media-relay `offer` outcome (`none` = thrown error or non-`ok` result),
`newToTag` and `genTag` the values produced by `generateTag()`. -/
structure InviteEnv where
  sdpValid : Bool
  offerResult : Option String
  newToTag : String
  genTag : String
deriving Repr

/-- `handleReInvite` (lines 418–472): validate the new offer, run it through
the media relay with the existing dialog tags, reply `200 OK` with the
translated answer and notify the browser side; any failure replies `500`.
The dialog store is untouched. -/
def handleReInvite (g : Gateway) (req : SipRequest) (env : InviteEnv) :
    Gateway × List Effect :=
  if ¬ env.sdpValid then
    let (g1, e) := sendResponse g req 500 "Internal Server Error" none
    (g1, [e])
  else
    match env.offerResult with
    | none =>
      let (g1, e) := sendResponse g req 500 "Internal Server Error" none
      (g1, [Effect.relayOffer req.callId, e])
    | some sdp =>
      let (g1, e) := sendResponse g req 200 "OK" (some sdp)
      (g1, [Effect.relayOffer req.callId, e, Effect.emitEvent "media-renegotiation"])

/-- `handleIncomingInvite` (lines 918–1010): reply `503` at the session cap;
otherwise validate and translate the offer (failure replies `500`), register
the INVITE server transaction and the new `ringing` dialog, reply `100` then
`180`, and raise the `incoming-sip-call` event. -/
def handleIncomingInvite (g : Gateway) (req : SipRequest) (rinfo : Rinfo)
    (tk : String) (env : InviteEnv) : Gateway × List Effect :=
  let fromTag := (extractTag req.fromH).getD env.genTag
  let callerUri :=
    (extractAngleUri req.fromH).getD (((req.fromH.splitOn ";").headD req.fromH).trim)
  if g.config.maxConcurrentSessions ≤ g.sessions.length then
    let (g1, e) := sendResponse g req 503 "Service Unavailable" none
    (g1, [e])
  else if ¬ env.sdpValid then
    let (g1, e) := sendResponse g req 500 "Internal Server Error" none
    (g1, [e])
  else
    match env.offerResult with
    | none =>
      let (g1, e) := sendResponse g req 500 "Internal Server Error" none
      (g1, [Effect.relayOffer req.callId, e])
    | some _ =>
      let g1 : Gateway :=
        { g with inviteTransactions := mapSet g.inviteTransactions tk ⟨req.callId, none⟩ }
      let sess : Session :=
        { direction := Direction.incoming
          state := SessionState.ringing
          fromTag := fromTag
          toTag := some env.newToTag
          cseq := 1
          targetUri := none
          viaBranch := none
          rinfo := some rinfo
          sipRequest := some req
          fromUri := some callerUri
          transactionKey := some tk
          retransmit200Timer := false
          ackTimeoutTimer := false
          ackReceived := false
          webrtcId := none }
      let g2 : Gateway :=
        { g1 with
          sessions := mapSet g1.sessions req.callId sess
          activeSessions := g1.activeSessions + 1
          totalCalls := g1.totalCalls + 1 }
      let (g3, e100) := sendResponse g2 req 100 "Trying" none
      let (g4, e180) := sendResponse g3 req 180 "Ringing" none
      (g4, [Effect.relayOffer req.callId, e100, e180,
            Effect.emitEvent "incoming-sip-call"])

/-- `handleInvite` (lines 375–416): a previously-seen server-transaction key
with a remembered response is answered by replaying that response, creating
nothing; otherwise an `established` dialog on the same call-id is a
re-INVITE, and anything else is a fresh incoming INVITE. -/
def handleInvite (g : Gateway) (req : SipRequest) (rinfo : Rinfo)
    (env : InviteEnv) : Gateway × List Effect :=
  let tk := inviteTransactionKey req
  match mapGet g.inviteTransactions tk with
  | some existing =>
    let g1 : Gateway := { g with retriedInvites := g.retriedInvites + 1 }
    match existing.lastResponse with
    | some lr =>
      let (g2, e) := sendResponse g1 req lr.status lr.reason lr.body
      (g2, [e])
    | none => (g1, [])
  | none =>
    match mapGet g.sessions req.callId with
    | some s =>
      if s.state = SessionState.established then
        handleReInvite { g with reInvites := g.reInvites + 1 } req env
      else handleIncomingInvite g req rinfo tk env
    | none => handleIncomingInvite g req rinfo tk env

/-- The non-deterministic inputs of `makeCallToSip`: the verdict of
`validateSDP` on the browser offer, the media-relay outcome, and the
generated call-id, tag, branch and random CSeq. -/
structure OutgoingEnv where
  sdpValid : Bool
  offerResult : Option String
  callId : String
  fromTag : String
  branch : String
  cseq : Nat
deriving Repr

/-- `makeCallToSip` (lines 724–817): refuse immediately at the session cap;
otherwise translate the browser offer (failures raise `call-failed` and
rethrow), store the new `calling` dialog and emit the INVITE to the
configured upstream server.  The third component is the thrown error, if
any. -/
def makeCallToSip (g : Gateway) (webrtcClientId targetSipUri : String)
    (env : OutgoingEnv) : Gateway × List Effect × Option String :=
  if g.config.maxConcurrentSessions ≤ g.sessions.length then
    (g, [], some "Maximum concurrent sessions reached")
  else
    let g0 : Gateway := { g with totalCalls := g.totalCalls + 1 }
    if ¬ env.sdpValid then
      ({ g0 with failedCalls := g0.failedCalls + 1 },
        [Effect.emitEvent "call-failed"], some "Invalid SDP")
    else
      match env.offerResult with
      | none =>
        ({ g0 with failedCalls := g0.failedCalls + 1 },
          [Effect.relayOffer env.callId, Effect.emitEvent "call-failed"],
          some "RTPEngine offer failed")
      | some _sipSdp =>
        let sess : Session :=
          { direction := Direction.outgoing
            state := SessionState.calling
            fromTag := env.fromTag
            toTag := none
            cseq := env.cseq
            targetUri := some targetSipUri
            viaBranch := some env.branch
            rinfo := none
            sipRequest := none
            fromUri := none
            transactionKey := none
            retransmit200Timer := false
            ackTimeoutTimer := false
            ackReceived := false
            webrtcId := some webrtcClientId }
        let g1 : Gateway :=
          { g0 with
            sessions := mapSet g0.sessions env.callId sess
            activeSessions := g0.activeSessions + 1 }
        (g1,
          [Effect.relayOffer env.callId,
            Effect.sendRequest "INVITE" targetSipUri g.config.sipServerHost
              g.config.sipServerPort env.branch
              ("\"" ++ g.config.displayName ++ "\" <sip:webrtc@" ++
                g.config.advertiseIP ++ ">;tag=" ++ env.fromTag)
              ("<" ++ targetSipUri ++ ">") env.cseq],
          none)

/-- `cleanupSession` (lines 1248–1299): no `terminating` guard in this
revision — when the session exists, cancel its timers, evict its INVITE
server transaction, issue the media-relay delete (failures are caught and
only logged, so `_relayDeleteFails` cannot alter the result), remove the
session and decrement the active counter with a floor of zero. -/
def cleanupSession (g : Gateway) (callId : String) (_relayDeleteFails : Bool) :
    Gateway × List Effect :=
  match mapGet g.sessions callId with
  | none => (g, [])
  | some session =>
    let g1 : Gateway :=
      match session.transactionKey with
      | some tk => { g with inviteTransactions := mapDelete g.inviteTransactions tk }
      | none => g
    ({ g1 with
        sessions := mapDelete g1.sessions callId
        activeSessions := g1.activeSessions - 1 },
      [Effect.relayDelete callId session.fromTag session.toTag])

/-- `handleAck` (lines 1137–1170): on a known call, cancel the 2xx
retransmit and acknowledgement timers, mark the acknowledgement received,
move to `established` and evict the INVITE server transaction; an unknown
call is only logged. -/
def handleAck (g : Gateway) (req : SipRequest) : Gateway × List Effect :=
  match mapGet g.sessions req.callId with
  | some session =>
    let s1 : Session :=
      { session with
        retransmit200Timer := false
        ackTimeoutTimer := false
        ackReceived := true
        state := SessionState.established }
    let g1 : Gateway := { g with sessions := mapSet g.sessions req.callId s1 }
    let g2 : Gateway :=
      match session.transactionKey with
      | some tk => { g1 with inviteTransactions := mapDelete g1.inviteTransactions tk }
      | none => g1
    (g2, [])
  | none => (g, [])

/-- `handleInfo` (lines 474–485): both branches reply `200 OK`; the
`application/dtmf-relay` branch additionally surfaces the digit upstream. -/
def handleInfo (g : Gateway) (req : SipRequest) (isDtmfRelay : Bool) :
    Gateway × List Effect :=
  let (g1, e) := sendResponse g req 200 "OK" none
  if isDtmfRelay then (g1, [Effect.emitEvent "dtmf-received", e]) else (g1, [e])

/-- `handleBye` (lines 1172–1190): a known call is answered `200 OK`, the
matching ended event is raised and the session cleaned up; an unknown call is
answered `481 Call/Transaction Does Not Exist`. -/
def handleBye (g : Gateway) (req : SipRequest) (relayDeleteFails : Bool) :
    Gateway × List Effect :=
  match mapGet g.sessions req.callId with
  | some session =>
    let (g1, e200) := sendResponse g req 200 "OK" none
    let ev : List Effect :=
      if session.direction = Direction.incoming ∧ session.webrtcId.isSome then
        [Effect.emitEvent "sip-call-ended"]
      else if session.direction = Direction.outgoing ∧ session.webrtcId.isSome then
        [Effect.emitEvent "call-ended"]
      else []
    let r := cleanupSession g1 req.callId relayDeleteFails
    (r.1, e200 :: ev ++ r.2)
  | none =>
    let (g1, e) := sendResponse g req 481 "Call/Transaction Does Not Exist" none
    (g1, [e])

/-- `handleCancel` (lines 1192–1210): a call still `ringing` gets `200 OK` on
the CANCEL, `487 Request Terminated` on the remembered original INVITE, the
ended event and cleanup; anything else is answered `481`. -/
def handleCancel (g : Gateway) (req : SipRequest) (relayDeleteFails : Bool) :
    Gateway × List Effect :=
  match mapGet g.sessions req.callId with
  | some session =>
    if session.state = SessionState.ringing then
      let (g1, e200) := sendResponse g req 200 "OK" none
      let (g2, e487) :=
        sendResponse g1 (session.sipRequest.getD emptyRequest) 487
          "Request Terminated" none
      let ev : List Effect :=
        if session.webrtcId.isSome then [Effect.emitEvent "sip-call-ended"] else []
      let r := cleanupSession g2 req.callId relayDeleteFails
      (r.1, e200 :: e487 :: ev ++ r.2)
    else
      let (g1, e) := sendResponse g req 481 "Call/Transaction Does Not Exist" none
      (g1, [e])
  | none =>
    let (g1, e) := sendResponse g req 481 "Call/Transaction Does Not Exist" none
    (g1, [e])

/-- `handleRequest` (lines 348–373): the method dispatch, with `200 OK` for
OPTIONS and `501 Not Implemented` for any unhandled method. -/
def handleRequest (g : Gateway) (req : SipRequest) (rinfo : Rinfo)
    (env : InviteEnv) (isDtmfRelay relayDeleteFails : Bool) :
    Gateway × List Effect :=
  if req.method = "INVITE" then handleInvite g req rinfo env
  else if req.method = "ACK" then handleAck g req
  else if req.method = "BYE" then handleBye g req relayDeleteFails
  else if req.method = "CANCEL" then handleCancel g req relayDeleteFails
  else if req.method = "INFO" then handleInfo g req isDtmfRelay
  else if req.method = "OPTIONS" then
    let (g1, e) := sendResponse g req 200 "OK" none
    (g1, [e])
  else
    let (g1, e) := sendResponse g req 501 "Not Implemented" none
    (g1, [e])

/-- `rejectCall` (lines 1112–1135, identical logic in src/unnamed/part_000):
unknown call identifiers and non-incoming dialogs return silently; an
incoming dialog is answered with the caller-chosen status on its remembered
origin request and then cleaned up. -/
def rejectCall (g : Gateway) (callId : String) (statusCode : Nat)
    (reason : String) (relayDeleteFails : Bool) : Gateway × List Effect :=
  match mapGet g.sessions callId with
  | none => (g, [])
  | some sessionData =>
    if sessionData.direction ≠ Direction.incoming then (g, [])
    else
      let (g1, e) :=
        sendResponse g (sessionData.sipRequest.getD emptyRequest) statusCode
          reason none
      let r := cleanupSession g1 callId relayDeleteFails
      (r.1, e :: r.2)

/-- Outcome of `rtpengineOperationWithRetry`: the value returned or error
thrown (`none` only when called with zero retries), the waits performed
between attempts, in milliseconds, and how many times the operation ran. -/
structure RetryOutcome (α : Type) where
  result : Option (Except String α)
  waits : List Nat
  attempts : Nat
deriving Repr

/-- The `for` loop of `rtpengineOperationWithRetry` (lines 1301–1316) from
iteration `i` with `fuel` iterations left: a success returns immediately, the
last failure is rethrown, and every earlier failure sleeps `100 * (i + 1)`
milliseconds before the next attempt.  `op i` is the outcome of the `i`-th
run of the wrapped operation. -/
def retryGo {α : Type} (op : Nat → Except String α) (i fuel : Nat) :
    RetryOutcome α :=
  match fuel with
  | 0 => ⟨none, [], 0⟩
  | Nat.succ fuel' =>
    match op i with
    | Except.ok a => ⟨some (Except.ok a), [], 1⟩
    | Except.error e =>
      if fuel' = 0 then ⟨some (Except.error e), [], 1⟩
      else
        let r := retryGo op (i + 1) fuel'
        ⟨r.result, 100 * (i + 1) :: r.waits, r.attempts + 1⟩

/-- `rtpengineOperationWithRetry(operation, retries = 3)`. -/
def rtpengineOperationWithRetry {α : Type} (op : Nat → Except String α)
    (retries : Nat) : RetryOutcome α :=
  retryGo op 0 retries

/-- Decimal digit characters. -/
def digitChar (d : Nat) : Char :=
  "0123456789".toList.getD d '0'

/-- Canonical base-10 rendering (fuelled; `n / 10 < n` keeps the fuel `n + 1`
ample): the digit characters of `n`, most significant first. -/
def decimalAux (fuel n : Nat) : List Char :=
  match fuel with
  | 0 => []
  | Nat.succ f =>
    if n < 10 then [digitChar n]
    else decimalAux f (n / 10) ++ [digitChar (n % 10)]

/-- The base-10 rendering of `n`, as a JavaScript template literal renders an
integer-valued number. -/
def decimalChars (n : Nat) : List Char :=
  decimalAux (n + 1) n

/-- Lowercase hexadecimal digit characters, as `Buffer.toString('hex')`. -/
def hexDigitChars : List Char :=
  "0123456789abcdef".toList

/-- One byte rendered as two lowercase hex characters. -/
def byteToHex (b : Nat) : List Char :=
  [hexDigitChars.getD (b / 16 % 16) '0', hexDigitChars.getD (b % 16) '0']

/-- `Buffer.toString('hex')` over a byte list. -/
def bytesToHex (bs : List Nat) : String :=
  ((bs.map byteToHex).flatten).asString

/-- Is the character a lowercase hexadecimal digit? -/
def isHexChar (c : Char) : Bool :=
  hexDigitChars.contains c

/-- `generateCallId` (lines 1318–1320):
`` `${Date.now()}${Math.floor(Math.random() * 1000000)}@${this.advertiseIP}` ``.
`nowMs` is the clock reading and `rand` the random draw below `1000000`. -/
def generateCallId (nowMs rand : Nat) (advertiseIP : String) : String :=
  (decimalChars nowMs).asString ++ (decimalChars rand).asString ++ "@" ++ advertiseIP

/-- `generateTag` (lines 1322–1324): `crypto.randomBytes(6).toString('hex')`;
`bytes` stands for the six random bytes. -/
def generateTag (bytes : List Nat) : String :=
  bytesToHex bytes

/-- `generateBranch` (lines 1326–1328):
`` `z9hG4bK${crypto.randomBytes(16).toString('hex')}` ``. -/
def generateBranch (bytes : List Nat) : String :=
  "z9hG4bK" ++ bytesToHex bytes

end SipGatewayJs

namespace SipGatewayAlt

/-! Embedding of the alternate revision `src/unnamed/part_000` for the
methods where it differs from `src/server/plugins/sipGateway.js`. -/

/-- `cleanupSession` (src/unnamed/part_000, lines 1222–1267): early-exit when
the session is unknown or already `terminating`; otherwise mark it
`terminating`, cancel both dialog timers, evict the INVITE server
transaction, issue the media-relay delete (its failure is caught and only
logged — `_relayDeleteFails` cannot alter the result), remove the session
from the store and decrement the active counter. -/
def cleanupSession (g : Gateway) (callId : String) (_relayDeleteFails : Bool) :
    Gateway × List Effect :=
  match mapGet g.sessions callId with
  | none => (g, [])
  | some s =>
    if s.state = SessionState.terminating then (g, [])
    else
      let s1 : Session :=
        { s with
          state := SessionState.terminating
          ackTimeoutTimer := false
          retransmit200Timer := false }
      let g1 : Gateway := { g with sessions := mapSet g.sessions callId s1 }
      let g2 : Gateway :=
        match s.transactionKey with
        | some tk => { g1 with inviteTransactions := mapDelete g1.inviteTransactions tk }
        | none => g1
      let effs : List Effect :=
        [Effect.relayDelete callId s.fromTag s.toTag]
      let g3 : Gateway :=
        { g2 with
          sessions := mapDelete g2.sessions callId
          activeSessions := g2.activeSessions - 1 }
      (g3, effs)

/-- `hangup` (src/unnamed/part_000, lines 1114–1186): in `established` or
`answered`, increment the dialog sequence number and send a BYE — to the
origin transport address for incoming dialogs, to the configured upstream
server for outgoing ones; a `calling` outgoing dialog gets a CANCEL on the
original INVITE branch with the unchanged sequence number; any other state
sends nothing.  Cleanup runs unconditionally afterwards.  `newBranch` is the
`generateBranch()` draw for the BYE. -/
def hangup (g : Gateway) (callId : String) (newBranch : String)
    (relayDeleteFails : Bool) : Gateway × List Effect :=
  match mapGet g.sessions callId with
  | none => (g, [])
  | some sessionData =>
    if sessionData.state = SessionState.established ∨
        sessionData.state = SessionState.answered then
      let s1 : Session := { sessionData with cseq := sessionData.cseq + 1 }
      let origReq := sessionData.sipRequest.getD emptyRequest
      let targetUri :=
        if sessionData.direction = Direction.outgoing then
          sessionData.targetUri.getD "undefined"
        else
          (extractAngleUri origReq.fromH).getD
            ((origReq.fromH.splitOn ";").headD origReq.fromH)
      let targetHost :=
        if sessionData.direction = Direction.outgoing then g.config.sipServerHost
        else (sessionData.rinfo.getD ⟨"", 0⟩).address
      let targetPort :=
        if sessionData.direction = Direction.outgoing then g.config.sipServerPort
        else (sessionData.rinfo.getD ⟨"", 0⟩).port
      let fromH :=
        if sessionData.direction = Direction.outgoing then
          "\"" ++ g.config.displayName ++ "\" <sip:gateway@" ++
            g.config.sipDomain ++ ">;tag=" ++ sessionData.fromTag
        else
          origReq.toH ++ ";tag=" ++ (sessionData.toTag.getD "null")
      let toH :=
        if sessionData.direction = Direction.outgoing then
          "<" ++ sessionData.targetUri.getD "undefined" ++ ">;tag=" ++
            (sessionData.toTag.getD "null")
        else
          origReq.fromH
      let g1 : Gateway := { g with sessions := mapSet g.sessions callId s1 }
      let bye := Effect.sendRequest "BYE" targetUri targetHost targetPort
        newBranch fromH toH s1.cseq
      let r := cleanupSession g1 callId relayDeleteFails
      (r.1, bye :: r.2)
    else if sessionData.direction = Direction.outgoing ∧
        sessionData.state = SessionState.calling then
      let cancel := Effect.sendRequest "CANCEL"
        (sessionData.targetUri.getD "undefined") g.config.sipServerHost
        g.config.sipServerPort (sessionData.viaBranch.getD "undefined")
        ("\"" ++ g.config.displayName ++ "\" <sip:gateway@" ++
          g.config.sipDomain ++ ">;tag=" ++ sessionData.fromTag)
        ("<" ++ sessionData.targetUri.getD "undefined" ++ ">")
        sessionData.cseq
      let r := cleanupSession g callId relayDeleteFails
      (r.1, cancel :: r.2)
    else
      cleanupSession g callId relayDeleteFails

end SipGatewayAlt

/-! ### Status-code sets -/

/-- The status codes the specification lists as the complete set the gateway
emits on the telephony leg. -/
def specStatusCodes : List Nat :=
  [100, 180, 200, 480, 487, 500, 501, 503, 603]

/-- The status codes the embedded handlers can actually emit: the
specification's set plus `481` (BYE/CANCEL on an unknown dialog) and `404`
(the hub's reject for an unknown target user). -/
def emittedStatusCodes : List Nat :=
  [100, 180, 200, 404, 480, 481, 487, 500, 501, 503, 603]

/-- Every response remembered inside the INVITE server transactions of `g`
has a status inside `codes`. -/
def storedStatusesIn (g : Gateway) (codes : List Nat) : Prop :=
  ∀ k t lr, mapGet g.inviteTransactions k = some t →
    t.lastResponse = some lr → lr.status ∈ codes

/-! ### Concrete fixtures for the closed witnesses and counterexamples -/

/-- A concrete configuration. -/
def cfg0 : GatewayConfig :=
  { sipServerHost := "10.0.0.2"
    sipServerPort := 5060
    maxConcurrentSessions := 1000
    advertiseIP := "192.168.1.10"
    localSipPort := 5060
    displayName := "WebRTC-SIP Gateway"
    sipDomain := "example.org" }

/-- The INVITE that created the concrete incoming dialog below. -/
def inviteReq0 : SipRequest :=
  { method := "INVITE"
    uri := "sip:alice@192.168.1.10"
    callId := "cid0"
    cseq := "1 INVITE"
    branch := some "z9hG4bKaaa"
    fromH := "<sip:bob@10.0.0.2>;tag=ft0"
    toH := "<sip:alice@192.168.1.10>"
    body := some "v=0" }

/-- A concrete incoming dialog in state `ringing`. -/
def sess0 : Session :=
  { direction := Direction.incoming
    state := SessionState.ringing
    fromTag := "ft0"
    toTag := some "tt0"
    cseq := 1
    targetUri := none
    viaBranch := none
    rinfo := some ⟨"192.168.1.127", 5060⟩
    sipRequest := some inviteReq0
    fromUri := some "sip:bob@10.0.0.2"
    transactionKey := some "cid0-1 INVITE-z9hG4bKaaa"
    retransmit200Timer := true
    ackTimeoutTimer := true
    ackReceived := false
    webrtcId := none }

/-- A concrete gateway holding exactly the dialog `cid0`. -/
def g0 : Gateway :=
  { config := cfg0
    sessions := [("cid0", sess0)]
    inviteTransactions := [("cid0-1 INVITE-z9hG4bKaaa", ⟨"cid0", none⟩)]
    activeSessions := 1
    totalCalls := 1
    failedCalls := 0
    retriedInvites := 0
    reInvites := 0 }

/-- A concrete gateway with no dialog at all. -/
def gEmpty : Gateway :=
  { config := cfg0
    sessions := []
    inviteTransactions := []
    activeSessions := 0
    totalCalls := 0
    failedCalls := 0
    retriedInvites := 0
    reInvites := 0 }

/-- A fresh INVITE used by the server-transaction fixtures. -/
def reqA : SipRequest :=
  { method := "INVITE"
    uri := "sip:alice@192.168.1.10"
    callId := "cidA"
    cseq := "2 INVITE"
    branch := some "z9hG4bKbbb"
    fromH := "<sip:bob@10.0.0.2>;tag=fA"
    toH := "<sip:alice@192.168.1.10>"
    body := some "v=0" }

/-- The server-transaction key of `reqA`. -/
def keyA : String := "cidA-2 INVITE-z9hG4bKbbb"

/-- A gateway whose server transaction for `keyA` has no remembered response
yet — the situation right after `handleIncomingInvite` registers the
transaction and before any response is sent. -/
def gA : Gateway :=
  { gEmpty with inviteTransactions := [(keyA, ⟨"cidA", none⟩)] }

/-- A gateway whose server transaction for `keyA` remembers the `180 Ringing`
— the first response at status ≥ 180 sent for that key. -/
def gB : Gateway :=
  { gEmpty with
    inviteTransactions := [(keyA, ⟨"cidA", some ⟨180, "Ringing", none⟩⟩)] }

/-- The concrete incoming dialog after answer and acknowledgement. -/
def sessEst : Session :=
  { sess0 with state := SessionState.established, webrtcId := some "alice" }

/-- A gateway holding the established incoming dialog `cid0`. -/
def gEst : Gateway :=
  { g0 with sessions := [("cid0", sessEst)] }

/-- A concrete outgoing dialog still awaiting its final response. -/
def sessOut : Session :=
  { direction := Direction.outgoing
    state := SessionState.calling
    fromTag := "ftO"
    toTag := none
    cseq := 7
    targetUri := some "sip:bob@10.0.0.2"
    viaBranch := some "z9hG4bKooo"
    rinfo := none
    sipRequest := none
    fromUri := none
    transactionKey := none
    retransmit200Timer := false
    ackTimeoutTimer := false
    ackReceived := false
    webrtcId := some "alice" }

/-- A gateway holding the outgoing dialog `cidO`. -/
def gOut : Gateway :=
  { g0 with sessions := [("cidO", sessOut)] }

/-- A BYE for a call identifier the gateway does not know. -/
def reqBye : SipRequest :=
  { method := "BYE"
    uri := "sip:gateway@192.168.1.10"
    callId := "nope"
    cseq := "2 BYE"
    branch := some "z9hG4bKzzz"
    fromH := "<sip:bob@10.0.0.2>;tag=x"
    toH := "<sip:alice@192.168.1.10>;tag=y"
    body := none }

/-! ### Map lemmas -/

theorem mapGet_mapSet_self {α : Type} (m : List (String × α)) (k : String) (v : α) :
    mapGet (mapSet m k v) k = some v := by
  unfold mapSet
  split
  · induction m with
    | nil => simp_all
    | cons p rest ih =>
      by_cases h : p.1 = k
      · simp [mapGet, h]
      · next hany =>
        simp only [List.any_cons, decide_eq_true_eq, Bool.or_eq_true] at hany
        rcases hany with h' | h'
        · exact absurd h' h
        · simpa [mapGet, h] using ih (by simpa using h')
  · induction m with
    | nil => simp [mapGet]
    | cons p rest ih =>
      next hany =>
      simp only [List.any_cons, decide_eq_true_eq, Bool.or_eq_true, not_or] at hany
      simp only [List.cons_append, mapGet, if_neg hany.1]
      exact ih (by simpa using hany.2)

theorem mapGet_mapDelete_self {α : Type} (m : List (String × α)) (k : String) :
    mapGet (mapDelete m k) k = none := by
  induction m with
  | nil => rfl
  | cons p rest ih =>
    by_cases h : p.1 = k
    · simpa [mapDelete, List.filter, h] using ih
    · simpa [mapDelete, List.filter, h, mapGet] using ih

theorem length_mapSet_le {α : Type} (m : List (String × α)) (k : String) (v : α) :
    (mapSet m k v).length ≤ m.length + 1 := by
  unfold mapSet
  split
  · simp
  · simp

theorem length_mapDelete_le {α : Type} (m : List (String × α)) (k : String) :
    (mapDelete m k).length ≤ m.length :=
  List.length_filter_le _ m

/-- A present key makes `mapSet` a pure replacement, preserving the size. -/
theorem length_mapSet_of_get {α : Type} {m : List (String × α)} {k : String}
    (v : α) {w : α} (h : mapGet m k = some w) :
    (mapSet m k v).length = m.length := by
  have hany : m.any (fun p => p.1 = k) = true := by
    induction m with
    | nil => simp [mapGet] at h
    | cons p rest ih =>
      by_cases hp : p.1 = k
      · simp [hp]
      · simp only [mapGet, if_neg hp] at h
        simp [ih h]
  simp [mapSet, hany]

/-! ### C1 — cleanup idempotence (src/unnamed/part_000) -/

/-- Cleanup of an unknown call identifier is a no-op. -/
theorem cleanupSession_not_found {g : Gateway} {callId : String} (b : Bool)
    (h : mapGet g.sessions callId = none) :
    SipGatewayAlt.cleanupSession g callId b = (g, []) := by
  simp [SipGatewayAlt.cleanupSession, h]

/-- Cleanup of a live dialog emits exactly the media-relay delete. -/
theorem cleanupSession_effects {g : Gateway} {callId : String} {s : Session} (b : Bool)
    (hs : mapGet g.sessions callId = some s)
    (hne : s.state ≠ SessionState.terminating) :
    (SipGatewayAlt.cleanupSession g callId b).2 =
      [Effect.relayDelete callId s.fromTag s.toTag] := by
  simp [SipGatewayAlt.cleanupSession, hs, hne]

/-- After cleanup of a live dialog, the dialog is gone from the store. -/
theorem cleanupSession_removes {g : Gateway} {callId : String} {s : Session} (b : Bool)
    (hs : mapGet g.sessions callId = some s)
    (hne : s.state ≠ SessionState.terminating) :
    mapGet (SipGatewayAlt.cleanupSession g callId b).1.sessions callId = none := by
  cases htk : s.transactionKey <;>
    simp [SipGatewayAlt.cleanupSession, hs, hne, htk, mapGet_mapDelete_self]

/-- C1. Dialog cleanup is idempotent (src/unnamed/part_000 `cleanupSession`):
re-entry on a `terminating` dialog returns immediately with no effect, and for
a live dialog two invocations of cleanup produce exactly one media-relay
delete, exactly one removal from the dialog store (the second invocation is a
pure no-op), and no errors — the outcome does not depend on whether the
media-relay delete fails. -/
theorem cleanupSession_idempotent (g : Gateway) (callId : String)
    (b1 b2 : Bool) (s : Session)
    (hs : mapGet g.sessions callId = some s) :
    (s.state = SessionState.terminating →
        SipGatewayAlt.cleanupSession g callId b1 = (g, [])) ∧
    (s.state ≠ SessionState.terminating →
        relayDeleteCount ((SipGatewayAlt.cleanupSession g callId b1).2 ++
            (SipGatewayAlt.cleanupSession
              (SipGatewayAlt.cleanupSession g callId b1).1 callId b2).2) = 1 ∧
        mapGet (SipGatewayAlt.cleanupSession g callId b1).1.sessions callId = none ∧
        SipGatewayAlt.cleanupSession
            (SipGatewayAlt.cleanupSession g callId b1).1 callId b2 =
          ((SipGatewayAlt.cleanupSession g callId b1).1, []) ∧
        SipGatewayAlt.cleanupSession g callId b1 =
          SipGatewayAlt.cleanupSession g callId b2) := by
  constructor
  · intro hterm
    simp [SipGatewayAlt.cleanupSession, hs, hterm]
  · intro hne
    have hget := cleanupSession_removes b1 hs hne
    have h2 := cleanupSession_not_found b2 hget
    refine ⟨?_, hget, h2, rfl⟩
    rw [h2, cleanupSession_effects b1 hs hne]
    simp [relayDeleteCount]

/-- Witness for C1: cleanup of the concrete live dialog `cid0`, run twice. -/
theorem cleanupSession_idempotent_witness :
    (sess0.state = SessionState.terminating →
        SipGatewayAlt.cleanupSession g0 "cid0" false = (g0, [])) ∧
    (sess0.state ≠ SessionState.terminating →
        relayDeleteCount ((SipGatewayAlt.cleanupSession g0 "cid0" false).2 ++
            (SipGatewayAlt.cleanupSession
              (SipGatewayAlt.cleanupSession g0 "cid0" false).1 "cid0" true).2) = 1 ∧
        mapGet (SipGatewayAlt.cleanupSession g0 "cid0" false).1.sessions "cid0" = none ∧
        SipGatewayAlt.cleanupSession
            (SipGatewayAlt.cleanupSession g0 "cid0" false).1 "cid0" true =
          ((SipGatewayAlt.cleanupSession g0 "cid0" false).1, []) ∧
        SipGatewayAlt.cleanupSession g0 "cid0" false =
          SipGatewayAlt.cleanupSession g0 "cid0" true) :=
  cleanupSession_idempotent g0 "cid0" false true sess0 (by decide)

/-! ### C2 — 2xx retransmission schedule -/

/-- The loop performs at most `maxRetransmits - count` further retransmissions. -/
theorem retransmitLoop_length_le (fuel : Nat) :
    ∀ stopAt now interval count,
      (SipGatewayJs.retransmitLoop stopAt now interval count fuel).length ≤
        SipGatewayJs.maxRetransmits - count := by
  induction fuel with
  | zero =>
    intro stopAt now interval count
    simp [SipGatewayJs.retransmitLoop]
  | succ fuel ih =>
    intro stopAt now interval count
    simp only [SipGatewayJs.retransmitLoop]
    split
    · simp
    · split
      · simp
      · next h1 h2 =>
        simp only [List.length_cons]
        have h3 := ih stopAt (now + interval) (min (interval * 2) SipGatewayJs.T2) (count + 1)
        omega

/-- Every firing instant precedes the clearing of the timer. -/
theorem retransmitLoop_mem_lt (fuel : Nat) :
    ∀ stopAt now interval count t,
      t ∈ SipGatewayJs.retransmitLoop stopAt now interval count fuel → t < stopAt := by
  induction fuel with
  | zero =>
    intro stopAt now interval count t ht
    simp [SipGatewayJs.retransmitLoop] at ht
  | succ fuel ih =>
    intro stopAt now interval count t ht
    simp only [SipGatewayJs.retransmitLoop] at ht
    split at ht
    · simp at ht
    · split at ht
      · simp at ht
      · next h1 h2 =>
        rcases List.mem_cons.mp ht with h | h
        · omega
        · exact ih _ _ _ _ _ h

/-- Clearing the timer earlier only truncates the schedule. -/
theorem retransmitLoop_prefix (fuel : Nat) :
    ∀ stopAt stopAt' now interval count, stopAt ≤ stopAt' →
      List.IsPrefix (SipGatewayJs.retransmitLoop stopAt now interval count fuel)
        (SipGatewayJs.retransmitLoop stopAt' now interval count fuel) := by
  induction fuel with
  | zero =>
    intro stopAt stopAt' now interval count hle
    simp [SipGatewayJs.retransmitLoop]
  | succ fuel ih =>
    intro stopAt stopAt' now interval count hle
    simp only [SipGatewayJs.retransmitLoop]
    by_cases h1 : stopAt ≤ now + interval
    · simp [h1]
    · have h1' : ¬ stopAt' ≤ now + interval := by omega
      simp only [if_neg h1, if_neg h1']
      by_cases h2 : SipGatewayJs.maxRetransmits ≤ count
      · simp [h2]
      · simp only [if_neg h2]
        rcases ih stopAt stopAt' (now + interval) (min (interval * 2) SipGatewayJs.T2)
            (count + 1) hle with ⟨tl, htl⟩
        exact ⟨tl, by simp [htl]⟩

/-- C2. 2xx retransmission for an incoming dialog: whatever the instant at
which the acknowledgement arrives or Timer-H cleanup clears the timer, there
are strictly fewer than 8 retransmissions; every retransmission happens before
that instant; an earlier stop yields a prefix of the same schedule; and the
full schedule (timer cleared by Timer-H at `64·T1`, no acknowledgement) fires
at the cumulative sums of the intervals `min(T1·2^k, T2)` — the exponential
backoff that starts at `T1` and doubles up to the `T2` ceiling. -/
theorem retransmit200_schedule_bounded :
    (∀ stopAt, (SipGatewayJs.retransmit200Schedule stopAt).length < 8) ∧
    (∀ stopAt t, t ∈ SipGatewayJs.retransmit200Schedule stopAt → t < stopAt) ∧
    (∀ stopAt stopAt', stopAt ≤ stopAt' →
      List.IsPrefix (SipGatewayJs.retransmit200Schedule stopAt)
        (SipGatewayJs.retransmit200Schedule stopAt')) ∧
    SipGatewayJs.retransmit200Schedule SipGatewayJs.TIMER_H =
      (List.range SipGatewayJs.maxRetransmits).map fun k =>
        ((List.range (k + 1)).map fun j =>
          min (SipGatewayJs.T1 * 2 ^ j) SipGatewayJs.T2).sum := by
  refine ⟨?_, ?_, ?_, by decide⟩
  · intro stopAt
    have h := retransmitLoop_length_le (SipGatewayJs.maxRetransmits + 1) stopAt 0
      SipGatewayJs.T1 0
    simp only [SipGatewayJs.retransmit200Schedule]
    have : SipGatewayJs.maxRetransmits = 7 := rfl
    omega
  · intro stopAt t ht
    exact retransmitLoop_mem_lt _ _ _ _ _ _ ht
  · intro stopAt stopAt' hle
    exact retransmitLoop_prefix _ _ _ _ _ _ hle

/-- Witness for C2: concrete instantiations of each quantified conjunct. -/
theorem retransmit200_schedule_bounded_witness :
    (SipGatewayJs.retransmit200Schedule 600).length < 8 ∧
    (500 ∈ SipGatewayJs.retransmit200Schedule SipGatewayJs.TIMER_H ∧
      500 < SipGatewayJs.TIMER_H) ∧
    (600 ≤ SipGatewayJs.TIMER_H ∧
      List.IsPrefix (SipGatewayJs.retransmit200Schedule 600)
        (SipGatewayJs.retransmit200Schedule SipGatewayJs.TIMER_H)) :=
  ⟨retransmit200_schedule_bounded.1 600,
    ⟨by decide, retransmit200_schedule_bounded.2.1 SipGatewayJs.TIMER_H 500 (by decide)⟩,
    ⟨by decide, retransmit200_schedule_bounded.2.2.1 600 SipGatewayJs.TIMER_H (by decide)⟩⟩

/-! ### C6 — NAT fixup idempotence -/

/-- C6. The NAT fixup for inbound requests is idempotent: for a top Via that
contains the `rport` token and a fixed datagram source, applying
`handleNATForRequest` twice yields the same top Via as applying it once. -/
theorem handleNATForRequest_idempotent (v : ViaTop) (rinfo : Rinfo)
    (h : v.rport ≠ RportParam.absent) :
    SipGatewayJs.handleNATForRequest (SipGatewayJs.handleNATForRequest v rinfo) rinfo =
      SipGatewayJs.handleNATForRequest v rinfo := by
  unfold SipGatewayJs.handleNATForRequest
  by_cases hc : v.host ≠ rinfo.address ∨ v.port.getD 5060 ≠ rinfo.port
  · simp only [if_pos hc, if_pos h]
    by_cases hr : v.received = none
    · simp [hr, hc, h]
    · simp [hr, hc, h]
  · simp [hc]

/-- Witness for C6 at a concrete Via behind NAT. -/
theorem handleNATForRequest_idempotent_witness :
    SipGatewayJs.handleNATForRequest
        (SipGatewayJs.handleNATForRequest
          ⟨"10.0.0.7", some 5060, RportParam.bare, none⟩ ⟨"203.0.113.9", 40000⟩)
        ⟨"203.0.113.9", 40000⟩ =
      SipGatewayJs.handleNATForRequest
        ⟨"10.0.0.7", some 5060, RportParam.bare, none⟩ ⟨"203.0.113.9", 40000⟩ :=
  handleNATForRequest_idempotent _ _ (by decide)

/-! ### C3 — INVITE retransmission replay and the remembered response -/

/-- `sendResponse` never touches the dialog store. -/
theorem sendResponse_sessions (g : Gateway) (req : SipRequest) (st : Nat)
    (r : String) (b : Option String) :
    (SipGatewayJs.sendResponse g req st r b).1.sessions = g.sessions := by
  simp only [SipGatewayJs.sendResponse]
  cases h : mapGet g.inviteTransactions (inviteTransactionKey req) <;> simp [h]

/-- C3 counterexample.  The claim says the remembered response of a
server-transaction key is populated by the first `sendResponse` call at
status ≥ 180 for that key.  In the code, `sendResponse` stores *every*
response for a known key: on `gA` (no remembered response yet) the very first
`sendResponse`, the `100 Trying` — a status below 180 — populates it, and on
`gB` (remembering the `180 Ringing`, the first status ≥ 180 response) a later
`200 OK` overwrites it, so what is remembered is the last response sent, not
the first one at status ≥ 180. -/
theorem sendResponse_remembered_counterexample :
    inviteTransactionKey reqA = keyA ∧
    mapGet (SipGatewayJs.sendResponse gA reqA 100 "Trying" none).1.inviteTransactions
        keyA = some ⟨"cidA", some ⟨100, "Trying", none⟩⟩ ∧
    (100 : Nat) < 180 ∧
    mapGet (SipGatewayJs.sendResponse gB reqA 200 "OK" none).1.inviteTransactions
        keyA = some ⟨"cidA", some ⟨200, "OK", none⟩⟩ ∧
    ¬ ((200 : Nat) = 180) := by decide

/-- C3 (amended).  When an INVITE arrives with a previously-seen
server-transaction key whose transaction holds a remembered response, the
engine replays exactly that response and the dialog store is untouched (no
second dialog for the call-id); and the remembered response of a known key is
updated by *every* `sendResponse` call for that key — whatever the status —
so it always holds the last response sent. -/
theorem invite_replay_no_second_dialog
    (g : Gateway) (req : SipRequest) (rinfo : Rinfo) (env : SipGatewayJs.InviteEnv)
    (ex : InviteTransaction) (lr : LastResponse)
    (hex : mapGet g.inviteTransactions (inviteTransactionKey req) = some ex) :
    (ex.lastResponse = some lr →
      (SipGatewayJs.handleInvite g req rinfo env).2 =
        [Effect.sendResponse lr.status lr.reason lr.body] ∧
      (SipGatewayJs.handleInvite g req rinfo env).1.sessions = g.sessions) ∧
    (∀ st r b, mapGet
        (SipGatewayJs.sendResponse g req st r b).1.inviteTransactions
        (inviteTransactionKey req) =
      some { ex with lastResponse := some ⟨st, r, b⟩ }) := by
  constructor
  · intro hlr
    simp [SipGatewayJs.handleInvite, SipGatewayJs.sendResponse, hex, hlr]
  · intro st r b
    simp [SipGatewayJs.sendResponse, hex, mapGet_mapSet_self]

/-- Witness for C3: the INVITE `reqA` retransmitted against `gB`, which
remembers the `180 Ringing`. -/
theorem invite_replay_no_second_dialog_witness :
    ((⟨"cidA", some ⟨180, "Ringing", none⟩⟩ : InviteTransaction).lastResponse =
        some ⟨180, "Ringing", none⟩ →
      (SipGatewayJs.handleInvite gB reqA ⟨"10.0.0.2", 5060⟩
          ⟨true, some "v=0", "t1", "t2"⟩).2 =
        [Effect.sendResponse 180 "Ringing" none] ∧
      (SipGatewayJs.handleInvite gB reqA ⟨"10.0.0.2", 5060⟩
          ⟨true, some "v=0", "t1", "t2"⟩).1.sessions = gB.sessions) ∧
    (∀ st r b, mapGet
        (SipGatewayJs.sendResponse gB reqA st r b).1.inviteTransactions
        (inviteTransactionKey reqA) =
      some ⟨"cidA", some ⟨st, r, b⟩⟩) :=
  invite_replay_no_second_dialog gB reqA ⟨"10.0.0.2", 5060⟩
    ⟨true, some "v=0", "t1", "t2"⟩ ⟨"cidA", some ⟨180, "Ringing", none⟩⟩
    ⟨180, "Ringing", none⟩ (by decide)

/-! ### C4 — the session cap -/

/-- `handleIncomingInvite` keeps the store at or below the cap. -/
theorem handleIncomingInvite_sessions_le (g : Gateway) (req : SipRequest)
    (rinfo : Rinfo) (tk : String) (env : SipGatewayJs.InviteEnv)
    (hcap : g.sessions.length ≤ g.config.maxConcurrentSessions) :
    (SipGatewayJs.handleIncomingInvite g req rinfo tk env).1.sessions.length ≤
      g.config.maxConcurrentSessions := by
  unfold SipGatewayJs.handleIncomingInvite
  by_cases h1 : g.config.maxConcurrentSessions ≤ g.sessions.length
  · simp [h1, sendResponse_sessions, hcap]
  · by_cases h2 : env.sdpValid
    · cases h3 : env.offerResult with
      | none => simp [h1, h2, h3, sendResponse_sessions, hcap]
      | some sdp =>
        simp only [if_neg h1, h2, not_true_eq_false, if_neg, if_false, h3,
          sendResponse_sessions]
        have h4 := length_mapSet_le g.sessions req.callId
        simp [h1, h2, h3, sendResponse_sessions]
        calc (mapSet g.sessions req.callId _).length
            ≤ g.sessions.length + 1 := length_mapSet_le _ _ _
          _ ≤ g.config.maxConcurrentSessions := by omega
    · simp [h1, h2, sendResponse_sessions, hcap]

/-- `handleInvite` keeps the store at or below the cap. -/
theorem handleInvite_sessions_le (g : Gateway) (req : SipRequest)
    (rinfo : Rinfo) (env : SipGatewayJs.InviteEnv)
    (hcap : g.sessions.length ≤ g.config.maxConcurrentSessions) :
    (SipGatewayJs.handleInvite g req rinfo env).1.sessions.length ≤
      g.config.maxConcurrentSessions := by
  unfold SipGatewayJs.handleInvite
  cases hex : mapGet g.inviteTransactions (inviteTransactionKey req) with
  | some ex =>
    cases hlr : ex.lastResponse with
    | some lr => simp [hex, hlr, sendResponse_sessions, hcap]
    | none => simp [hex, hlr, hcap]
  | none =>
    cases hs : mapGet g.sessions req.callId with
    | some s =>
      by_cases hst : s.state = SessionState.established
      · have hre : ∀ g' : Gateway, g'.sessions = g.sessions →
            (SipGatewayJs.handleReInvite g' req env).1.sessions.length ≤
              g.config.maxConcurrentSessions := by
          intro g' hg'
          unfold SipGatewayJs.handleReInvite
          by_cases h2 : env.sdpValid
          · cases h3 : env.offerResult with
            | none => simp [h2, h3, sendResponse_sessions, hg', hcap]
            | some sdp => simp [h2, h3, sendResponse_sessions, hg', hcap]
          · simp [h2, sendResponse_sessions, hg', hcap]
        simp only [hex, hs, hst, if_true]
        exact hre _ rfl
      · simpa [hex, hs, hst] using
          handleIncomingInvite_sessions_le g req rinfo (inviteTransactionKey req) env hcap
    | none =>
      simpa [hex, hs] using
        handleIncomingInvite_sessions_le g req rinfo (inviteTransactionKey req) env hcap

/-- C4. The dialog store never exceeds the configured cap: starting from a
store within the cap, the INVITE path, the outbound `makeCallToSip` and the
cleanup path all leave it within the cap; and at the cap an inbound INVITE is
answered `503 Service Unavailable` with the store unchanged, while an
outbound place throws the capacity error with the whole state unchanged. -/
theorem session_cap_invariant
    (g : Gateway) (req : SipRequest) (rinfo : Rinfo) (env : SipGatewayJs.InviteEnv)
    (wid uri : String) (oenv : SipGatewayJs.OutgoingEnv) (cid : String) (b : Bool)
    (hcap : g.sessions.length ≤ g.config.maxConcurrentSessions) :
    ((SipGatewayJs.handleInvite g req rinfo env).1.sessions.length ≤
        g.config.maxConcurrentSessions) ∧
    ((SipGatewayJs.makeCallToSip g wid uri oenv).1.sessions.length ≤
        g.config.maxConcurrentSessions) ∧
    ((SipGatewayAlt.cleanupSession g cid b).1.sessions.length ≤
        g.config.maxConcurrentSessions) ∧
    (g.sessions.length = g.config.maxConcurrentSessions →
      (statusesOf (SipGatewayJs.handleIncomingInvite g req rinfo
          (inviteTransactionKey req) env).2 = [503] ∧
        (SipGatewayJs.handleIncomingInvite g req rinfo
          (inviteTransactionKey req) env).1.sessions = g.sessions) ∧
      ((SipGatewayJs.makeCallToSip g wid uri oenv).2.2 =
          some "Maximum concurrent sessions reached" ∧
        (SipGatewayJs.makeCallToSip g wid uri oenv).1 = g)) := by
  refine ⟨handleInvite_sessions_le g req rinfo env hcap, ?_, ?_, ?_⟩
  · unfold SipGatewayJs.makeCallToSip
    by_cases h1 : g.config.maxConcurrentSessions ≤ g.sessions.length
    · simp [h1, hcap]
    · by_cases h2 : oenv.sdpValid
      · cases h3 : oenv.offerResult with
        | none => simp [h1, h2, h3, hcap]
        | some sdp =>
          simp only [if_neg h1, h2, h3]
          simp only [not_true_eq_false, if_false]
          calc (mapSet g.sessions oenv.callId _).length
              ≤ g.sessions.length + 1 := length_mapSet_le _ _ _
            _ ≤ g.config.maxConcurrentSessions := by omega
      · simp [h1, h2, hcap]
  · unfold SipGatewayAlt.cleanupSession
    cases hs : mapGet g.sessions cid with
    | none => simpa using hcap
    | some s =>
      by_cases hterm : s.state = SessionState.terminating
      · simp [hterm, hcap]
      · cases htk : s.transactionKey with
        | none =>
          simp [hterm, htk]
          refine le_trans (length_mapDelete_le _ _) ?_
          rw [length_mapSet_of_get _ hs]
          exact hcap
        | some tk =>
          simp [hterm, htk]
          refine le_trans (length_mapDelete_le _ _) ?_
          rw [length_mapSet_of_get _ hs]
          exact hcap
  · intro heq
    have h1 : g.config.maxConcurrentSessions ≤ g.sessions.length := le_of_eq heq.symm
    constructor
    · constructor
      · simp [SipGatewayJs.handleIncomingInvite, h1, SipGatewayJs.sendResponse,
          statusesOf]
      · simp [SipGatewayJs.handleIncomingInvite, h1, sendResponse_sessions]
    · simp [SipGatewayJs.makeCallToSip, h1]

/-- Witness for C4: the concrete gateway `g0`, well under its cap of 1000. -/
theorem session_cap_invariant_witness :
    ((SipGatewayJs.handleInvite g0 reqA ⟨"10.0.0.2", 5060⟩
        ⟨true, some "v=0", "t1", "t2"⟩).1.sessions.length ≤
      g0.config.maxConcurrentSessions) ∧
    ((SipGatewayJs.makeCallToSip g0 "alice" "sip:bob@10.0.0.2"
        ⟨true, some "v=0", "cidB", "ftB", "z9hG4bKccc", 7⟩).1.sessions.length ≤
      g0.config.maxConcurrentSessions) ∧
    ((SipGatewayAlt.cleanupSession g0 "cid0" false).1.sessions.length ≤
      g0.config.maxConcurrentSessions) ∧
    (g0.sessions.length = g0.config.maxConcurrentSessions →
      (statusesOf (SipGatewayJs.handleIncomingInvite g0 reqA ⟨"10.0.0.2", 5060⟩
          (inviteTransactionKey reqA) ⟨true, some "v=0", "t1", "t2"⟩).2 = [503] ∧
        (SipGatewayJs.handleIncomingInvite g0 reqA ⟨"10.0.0.2", 5060⟩
          (inviteTransactionKey reqA) ⟨true, some "v=0", "t1", "t2"⟩).1.sessions =
          g0.sessions) ∧
      ((SipGatewayJs.makeCallToSip g0 "alice" "sip:bob@10.0.0.2"
          ⟨true, some "v=0", "cidB", "ftB", "z9hG4bKccc", 7⟩).2.2 =
          some "Maximum concurrent sessions reached" ∧
        (SipGatewayJs.makeCallToSip g0 "alice" "sip:bob@10.0.0.2"
          ⟨true, some "v=0", "cidB", "ftB", "z9hG4bKccc", 7⟩).1 = g0)) :=
  session_cap_invariant g0 reqA ⟨"10.0.0.2", 5060⟩ ⟨true, some "v=0", "t1", "t2"⟩
    "alice" "sip:bob@10.0.0.2" ⟨true, some "v=0", "cidB", "ftB", "z9hG4bKccc", 7⟩
    "cid0" false (by decide)

/-! ### C5 — gateway-initiated hangup (src/unnamed/part_000) -/

/-- `requestsOf` keeps a request whose method matches. -/
theorem requestsOf_cons_same (method u hst : String) (p : Nat)
    (br f t : String) (c : Nat) (es : List Effect) :
    requestsOf method (Effect.sendRequest method u hst p br f t c :: es) =
      Effect.sendRequest method u hst p br f t c :: requestsOf method es := by
  simp [requestsOf]

/-- `requestsOf` drops a request whose method differs. -/
theorem requestsOf_cons_other {m method : String} (hne : ¬ m = method)
    (u hst : String) (p : Nat) (br f t : String) (c : Nat) (es : List Effect) :
    requestsOf method (Effect.sendRequest m u hst p br f t c :: es) =
      requestsOf method es := by
  simp [requestsOf, hne]

/-- The cleanup path emits no SIP request at all. -/
theorem requestsOf_cleanupSessionAlt (method : String) (g : Gateway)
    (c : String) (b : Bool) :
    requestsOf method (SipGatewayAlt.cleanupSession g c b).2 = [] := by
  unfold SipGatewayAlt.cleanupSession
  cases hs : mapGet g.sessions c with
  | none => simp [requestsOf]
  | some s =>
    by_cases ht : s.state = SessionState.terminating
    · simp [ht, requestsOf]
    · simp [ht, requestsOf]

/-- C5. Gateway-initiated hangup (src/unnamed/part_000 `hangup`): a dialog in
`established` or `answered` gets exactly one BYE — carrying the incremented
dialog sequence number, addressed to the origin transport address for
incoming dialogs and to the configured upstream server for outgoing ones —
and no CANCEL; a `calling` outgoing dialog gets exactly one CANCEL on the
original INVITE branch with the unchanged sequence number and no BYE; any
other state sends no BYE at all. -/
theorem hangup_bye_cancel_routing (g : Gateway) (callId newBranch : String)
    (b : Bool) (s : Session) (hs : mapGet g.sessions callId = some s) :
    ((s.state = SessionState.established ∨ s.state = SessionState.answered) →
      (∃ uri fromH toH,
        requestsOf "BYE" (SipGatewayAlt.hangup g callId newBranch b).2 =
          [Effect.sendRequest "BYE" uri
            (if s.direction = Direction.outgoing then g.config.sipServerHost
              else (s.rinfo.getD ⟨"", 0⟩).address)
            (if s.direction = Direction.outgoing then g.config.sipServerPort
              else (s.rinfo.getD ⟨"", 0⟩).port)
            newBranch fromH toH (s.cseq + 1)]) ∧
      requestsOf "CANCEL" (SipGatewayAlt.hangup g callId newBranch b).2 = []) ∧
    (s.direction = Direction.outgoing ∧ s.state = SessionState.calling →
      (∃ fromH toH,
        requestsOf "CANCEL" (SipGatewayAlt.hangup g callId newBranch b).2 =
          [Effect.sendRequest "CANCEL" (s.targetUri.getD "undefined")
            g.config.sipServerHost g.config.sipServerPort
            (s.viaBranch.getD "undefined") fromH toH s.cseq]) ∧
      requestsOf "BYE" (SipGatewayAlt.hangup g callId newBranch b).2 = []) ∧
    (¬ (s.state = SessionState.established ∨ s.state = SessionState.answered) →
      requestsOf "BYE" (SipGatewayAlt.hangup g callId newBranch b).2 = []) := by
  refine ⟨?_, ?_, ?_⟩
  · intro hcond
    rcases hcond with hst | hst <;> cases hdir : s.direction <;> refine ⟨?_, ?_⟩ <;>
      simp [SipGatewayAlt.hangup, hs, hst, hdir, requestsOf_cons_same,
        requestsOf_cons_other, requestsOf_cleanupSessionAlt]
  · rintro ⟨hdir, hst⟩
    refine ⟨?_, ?_⟩ <;>
      simp [SipGatewayAlt.hangup, hs, hst, hdir, requestsOf_cons_same,
        requestsOf_cons_other, requestsOf_cleanupSessionAlt]
  · intro hcond
    cases hstate : s.state with
    | established => exact absurd (Or.inl hstate) hcond
    | answered => exact absurd (Or.inr hstate) hcond
    | calling =>
      cases hdir : s.direction <;>
        simp [SipGatewayAlt.hangup, hs, hstate, hdir, requestsOf_cons_same,
          requestsOf_cons_other, requestsOf_cleanupSessionAlt]
    | ringing =>
      cases hdir : s.direction <;>
        simp [SipGatewayAlt.hangup, hs, hstate, hdir, requestsOf_cons_same,
          requestsOf_cons_other, requestsOf_cleanupSessionAlt]
    | terminating =>
      cases hdir : s.direction <;>
        simp [SipGatewayAlt.hangup, hs, hstate, hdir, requestsOf_cons_same,
          requestsOf_cons_other, requestsOf_cleanupSessionAlt]

/-- Witness for C5: hanging up the concrete established incoming dialog. -/
theorem hangup_bye_cancel_routing_witness :
    ((sessEst.state = SessionState.established ∨
        sessEst.state = SessionState.answered) →
      (∃ uri fromH toH,
        requestsOf "BYE" (SipGatewayAlt.hangup gEst "cid0" "z9hG4bKnew" false).2 =
          [Effect.sendRequest "BYE" uri
            (if sessEst.direction = Direction.outgoing then gEst.config.sipServerHost
              else (sessEst.rinfo.getD ⟨"", 0⟩).address)
            (if sessEst.direction = Direction.outgoing then gEst.config.sipServerPort
              else (sessEst.rinfo.getD ⟨"", 0⟩).port)
            "z9hG4bKnew" fromH toH (sessEst.cseq + 1)]) ∧
      requestsOf "CANCEL" (SipGatewayAlt.hangup gEst "cid0" "z9hG4bKnew" false).2 = []) ∧
    (sessEst.direction = Direction.outgoing ∧
        sessEst.state = SessionState.calling →
      (∃ fromH toH,
        requestsOf "CANCEL" (SipGatewayAlt.hangup gEst "cid0" "z9hG4bKnew" false).2 =
          [Effect.sendRequest "CANCEL" (sessEst.targetUri.getD "undefined")
            gEst.config.sipServerHost gEst.config.sipServerPort
            (sessEst.viaBranch.getD "undefined") fromH toH sessEst.cseq]) ∧
      requestsOf "BYE" (SipGatewayAlt.hangup gEst "cid0" "z9hG4bKnew" false).2 = []) ∧
    (¬ (sessEst.state = SessionState.established ∨
        sessEst.state = SessionState.answered) →
      requestsOf "BYE" (SipGatewayAlt.hangup gEst "cid0" "z9hG4bKnew" false).2 = []) :=
  hangup_bye_cancel_routing gEst "cid0" "z9hG4bKnew" false sessEst (by decide)

/-! ### C10 — reject on unknown or outgoing dialogs -/

/-- C10. `rejectCall` on a call identifier that is unknown or names an
outgoing dialog is a silent no-op: no response, no media-relay operation, no
event, no error, and the whole gateway state — the dialog store included — is
returned unchanged. -/
theorem rejectCall_noop_on_unknown_or_outgoing (g : Gateway)
    (callId : String) (st : Nat) (r : String) (b : Bool)
    (h : mapGet g.sessions callId = none ∨
      ∃ s, mapGet g.sessions callId = some s ∧ s.direction = Direction.outgoing) :
    SipGatewayJs.rejectCall g callId st r b = (g, []) := by
  rcases h with h | ⟨s, hs, hdir⟩
  · simp [SipGatewayJs.rejectCall, h]
  · simp [SipGatewayJs.rejectCall, hs, hdir]

/-- Witness for C10: an unknown call identifier and a concrete outgoing
dialog. -/
theorem rejectCall_noop_witness :
    SipGatewayJs.rejectCall gEmpty "nope" 603 "Decline" false = (gEmpty, []) ∧
    SipGatewayJs.rejectCall gOut "cidO" 603 "Decline" false = (gOut, []) :=
  ⟨rejectCall_noop_on_unknown_or_outgoing gEmpty "nope" 603 "Decline" false
      (Or.inl (by decide)),
    rejectCall_noop_on_unknown_or_outgoing gOut "cidO" 603 "Decline" false
      (Or.inr ⟨sessOut, by decide, by decide⟩)⟩

/-! ### C7 — the set of emitted status codes -/

@[simp] theorem statusesOf_nil : statusesOf [] = [] := rfl

@[simp] theorem statusesOf_cons_response (st : Nat) (r : String)
    (b : Option String) (es : List Effect) :
    statusesOf (Effect.sendResponse st r b :: es) = st :: statusesOf es := rfl

@[simp] theorem statusesOf_cons_request (m u hst : String) (p : Nat)
    (br f t : String) (c : Nat) (es : List Effect) :
    statusesOf (Effect.sendRequest m u hst p br f t c :: es) = statusesOf es := rfl

@[simp] theorem statusesOf_cons_offer (c : String) (es : List Effect) :
    statusesOf (Effect.relayOffer c :: es) = statusesOf es := rfl

@[simp] theorem statusesOf_cons_answer (c : String) (es : List Effect) :
    statusesOf (Effect.relayAnswer c :: es) = statusesOf es := rfl

@[simp] theorem statusesOf_cons_delete (c f : String) (t : Option String)
    (es : List Effect) :
    statusesOf (Effect.relayDelete c f t :: es) = statusesOf es := rfl

@[simp] theorem statusesOf_cons_emit (n : String) (es : List Effect) :
    statusesOf (Effect.emitEvent n :: es) = statusesOf es := rfl

@[simp] theorem statusesOf_append (a b : List Effect) :
    statusesOf (a ++ b) = statusesOf a ++ statusesOf b := by
  simp [statusesOf]

/-- The plugin cleanup path emits no response. -/
theorem statusesOf_cleanupSessionJs (g : Gateway) (c : String) (b : Bool) :
    statusesOf (SipGatewayJs.cleanupSession g c b).2 = [] := by
  unfold SipGatewayJs.cleanupSession
  cases hs : mapGet g.sessions c with
  | none => simp
  | some s => simp

/-- `handleBye` replies `200` on a known call and `481` otherwise. -/
theorem statusesOf_handleBye (g : Gateway) (req : SipRequest) (b : Bool) :
    statusesOf (SipGatewayJs.handleBye g req b).2 = [200] ∨
    statusesOf (SipGatewayJs.handleBye g req b).2 = [481] := by
  unfold SipGatewayJs.handleBye
  cases hs : mapGet g.sessions req.callId with
  | none => right; simp [SipGatewayJs.sendResponse]
  | some s =>
    left
    by_cases h1 : s.direction = Direction.incoming ∧ s.webrtcId.isSome
    · simp [SipGatewayJs.sendResponse, h1, statusesOf_cleanupSessionJs]
    · by_cases h2 : s.direction = Direction.outgoing ∧ s.webrtcId.isSome
      · simp [SipGatewayJs.sendResponse, h1, h2, statusesOf_cleanupSessionJs]
      · simp [SipGatewayJs.sendResponse, h1, h2, statusesOf_cleanupSessionJs]

/-- `handleCancel` replies `200` + `487` on a ringing call and `481`
otherwise. -/
theorem statusesOf_handleCancel (g : Gateway) (req : SipRequest) (b : Bool) :
    statusesOf (SipGatewayJs.handleCancel g req b).2 = [200, 487] ∨
    statusesOf (SipGatewayJs.handleCancel g req b).2 = [481] := by
  unfold SipGatewayJs.handleCancel
  cases hs : mapGet g.sessions req.callId with
  | none => right; simp [SipGatewayJs.sendResponse]
  | some s =>
    by_cases h1 : s.state = SessionState.ringing
    · left
      by_cases h2 : s.webrtcId.isSome
      · simp [SipGatewayJs.sendResponse, h1, h2, statusesOf_cleanupSessionJs]
      · simp [SipGatewayJs.sendResponse, h1, h2, statusesOf_cleanupSessionJs]
    · right; simp [SipGatewayJs.sendResponse, h1]

/-- `handleAck` never replies. -/
theorem statusesOf_handleAck (g : Gateway) (req : SipRequest) :
    statusesOf (SipGatewayJs.handleAck g req).2 = [] := by
  unfold SipGatewayJs.handleAck
  cases hs : mapGet g.sessions req.callId with
  | none => simp
  | some s => cases htk : s.transactionKey <;> simp [htk]

/-- `handleReInvite` replies `500` or `200`. -/
theorem statusesOf_handleReInvite (g : Gateway) (req : SipRequest)
    (env : SipGatewayJs.InviteEnv) :
    statusesOf (SipGatewayJs.handleReInvite g req env).2 = [500] ∨
    statusesOf (SipGatewayJs.handleReInvite g req env).2 = [200] := by
  unfold SipGatewayJs.handleReInvite
  by_cases h2 : env.sdpValid
  · cases h3 : env.offerResult with
    | none => left; simp [SipGatewayJs.sendResponse, h2, h3]
    | some sdp => right; simp [SipGatewayJs.sendResponse, h2, h3]
  · left; simp [SipGatewayJs.sendResponse, h2]

/-- `handleIncomingInvite` replies `503`, `500`, or `100` then `180`. -/
theorem statusesOf_handleIncomingInvite (g : Gateway) (req : SipRequest)
    (rinfo : Rinfo) (tk : String) (env : SipGatewayJs.InviteEnv) :
    statusesOf (SipGatewayJs.handleIncomingInvite g req rinfo tk env).2 = [503] ∨
    statusesOf (SipGatewayJs.handleIncomingInvite g req rinfo tk env).2 = [500] ∨
    statusesOf (SipGatewayJs.handleIncomingInvite g req rinfo tk env).2 = [100, 180] := by
  unfold SipGatewayJs.handleIncomingInvite
  by_cases h1 : g.config.maxConcurrentSessions ≤ g.sessions.length
  · left; simp [SipGatewayJs.sendResponse, h1]
  · by_cases h2 : env.sdpValid
    · cases h3 : env.offerResult with
      | none => right; left; simp [SipGatewayJs.sendResponse, h1, h2, h3]
      | some sdp => right; right; simp [SipGatewayJs.sendResponse, h1, h2, h3]
    · right; left; simp [SipGatewayJs.sendResponse, h1, h2]

/-- Every status `handleInvite` emits is in the amended set, provided every
remembered response is. -/
theorem statusesOf_handleInvite_mem (g : Gateway) (req : SipRequest)
    (rinfo : Rinfo) (env : SipGatewayJs.InviteEnv)
    (hstored : storedStatusesIn g emittedStatusCodes) :
    ∀ st ∈ statusesOf (SipGatewayJs.handleInvite g req rinfo env).2,
      st ∈ emittedStatusCodes := by
  intro st hst
  unfold SipGatewayJs.handleInvite at hst
  cases hex : mapGet g.inviteTransactions (inviteTransactionKey req) with
  | some ex =>
    cases hlr : ex.lastResponse with
    | some lr =>
      simp only [hex] at hst
      simp only [hlr, SipGatewayJs.sendResponse] at hst
      simp at hst
      rw [hst]
      exact hstored _ _ _ hex hlr
    | none =>
      simp only [hex] at hst
      simp [hlr] at hst
  | none =>
    simp only [hex] at hst
    cases hs : mapGet g.sessions req.callId with
    | some s =>
      simp only [hs] at hst
      by_cases hest : s.state = SessionState.established
      · simp only [hest, if_true] at hst
        rcases statusesOf_handleReInvite
            { g with reInvites := g.reInvites + 1 } req env with h | h <;>
          rw [h] at hst <;> simp at hst <;> simp [hst, emittedStatusCodes]
      · simp only [hest, if_false] at hst
        rcases statusesOf_handleIncomingInvite g req rinfo
            (inviteTransactionKey req) env with h | h | h <;>
          rw [h] at hst <;> simp at hst <;>
            first
              | (rw [hst]; decide)
              | (rcases hst with hst | hst <;> rw [hst] <;> decide)
    | none =>
      simp only [hs] at hst
      rcases statusesOf_handleIncomingInvite g req rinfo
          (inviteTransactionKey req) env with h | h | h <;>
        rw [h] at hst <;> simp at hst <;>
          first
            | (rw [hst]; decide)
            | (rcases hst with hst | hst <;> rw [hst] <;> decide)

/-- C7 counterexample.  The specification's status-code set
`{100, 180, 200, 480, 487, 500, 501, 503, 603}` is incomplete: a BYE for an
unknown call identifier is answered `481 Call/Transaction Does Not Exist`,
and the hub's incoming-call handler rejects a call whose target user is
unknown with `404 Not Found`, which the gateway emits verbatim; neither code
is in the claimed set. -/
theorem statuses_outside_spec_set_counterexample :
    statusesOf (SipGatewayJs.handleBye gEmpty reqBye false).2 = [481] ∧
    ¬ (481 ∈ specStatusCodes) ∧
    statusesOf (SipGatewayJs.rejectCall g0 "cid0" 404 "Not Found" false).2 = [404] ∧
    ¬ (404 ∈ specStatusCodes) := by decide

/-- C7 (amended).  Every status code the gateway emits through its request
dispatch — INVITE (fresh, re-INVITE, or retransmission replay), ACK, BYE,
CANCEL, INFO, OPTIONS and unknown methods — or through `rejectCall` as the
hub invokes it (`603` decline, `480` unreachable target peer, `404` unknown
target user) lies in `{100, 180, 200, 404, 480, 481, 487, 500, 501, 503,
603}`, provided every response already remembered in the server transactions
lies in that set. -/
theorem emitted_status_codes_amended
    (g : Gateway) (req : SipRequest) (rinfo : Rinfo) (env : SipGatewayJs.InviteEnv)
    (isDtmf b : Bool) (cid rsn : String) (stc : Nat)
    (hstored : storedStatusesIn g emittedStatusCodes)
    (hstc : stc ∈ [404, 480, 603]) :
    (∀ st ∈ statusesOf (SipGatewayJs.handleRequest g req rinfo env isDtmf b).2,
      st ∈ emittedStatusCodes) ∧
    (∀ st ∈ statusesOf (SipGatewayJs.rejectCall g cid stc rsn b).2,
      st ∈ emittedStatusCodes) := by
  constructor
  · intro st hst
    unfold SipGatewayJs.handleRequest at hst
    by_cases hm1 : req.method = "INVITE"
    · simp only [hm1, if_true] at hst
      exact statusesOf_handleInvite_mem g req rinfo env hstored st hst
    · simp only [hm1, if_false] at hst
      by_cases hm2 : req.method = "ACK"
      · rw [if_pos hm2, statusesOf_handleAck] at hst
        simp at hst
      · rw [if_neg hm2] at hst
        by_cases hm3 : req.method = "BYE"
        · rw [if_pos hm3] at hst
          rcases statusesOf_handleBye g req b with h | h <;>
            rw [h] at hst <;> simp at hst <;> rw [hst] <;> decide
        · rw [if_neg hm3] at hst
          by_cases hm4 : req.method = "CANCEL"
          · rw [if_pos hm4] at hst
            rcases statusesOf_handleCancel g req b with h | h <;>
              rw [h] at hst <;> simp at hst
            · rcases hst with hst | hst <;> rw [hst] <;> decide
            · rw [hst]; decide
          · rw [if_neg hm4] at hst
            by_cases hm5 : req.method = "INFO"
            · rw [if_pos hm5] at hst
              unfold SipGatewayJs.handleInfo at hst
              cases isDtmf <;> simp [SipGatewayJs.sendResponse] at hst <;>
                rw [hst] <;> decide
            · rw [if_neg hm5] at hst
              by_cases hm6 : req.method = "OPTIONS"
              · rw [if_pos hm6] at hst
                simp [SipGatewayJs.sendResponse] at hst
                rw [hst]; decide
              · rw [if_neg hm6] at hst
                simp [SipGatewayJs.sendResponse] at hst
                rw [hst]; decide
  · intro st hst
    unfold SipGatewayJs.rejectCall at hst
    cases hs : mapGet g.sessions cid with
    | none => rw [hs] at hst; simp at hst
    | some s =>
      rw [hs] at hst
      by_cases hdir : s.direction = Direction.incoming
      · simp only [hdir] at hst
        simp [SipGatewayJs.sendResponse, statusesOf_cleanupSessionJs] at hst
        rw [hst]
        fin_cases hstc <;> decide
      · simp [hdir] at hst

/-- Witness for C7: the empty gateway (no remembered responses), a BYE for an
unknown call, and the hub's `480` reject. -/
theorem emitted_status_codes_amended_witness :
    (∀ st ∈ statusesOf (SipGatewayJs.handleRequest gEmpty reqBye ⟨"10.0.0.2", 5060⟩
        ⟨true, some "v=0", "t1", "t2"⟩ false false).2, st ∈ emittedStatusCodes) ∧
    (∀ st ∈ statusesOf (SipGatewayJs.rejectCall gEmpty "cid0" 480
        "Temporarily Unavailable" false).2, st ∈ emittedStatusCodes) :=
  emitted_status_codes_amended gEmpty reqBye ⟨"10.0.0.2", 5060⟩
    ⟨true, some "v=0", "t1", "t2"⟩ false false "cid0" "Temporarily Unavailable" 480
    (by intro k t lr h1 h2; simp [gEmpty, mapGet] at h1)
    (by decide)

/-! ### C8 — identifier formats -/

/-- Characters produced by `digitChar` on inputs below 10 are digits. -/
theorem digitChar_isDigit (d : Nat) (h : d < 10) :
    (SipGatewayJs.digitChar d).isDigit = true := by
  interval_cases d <;> decide

/-- Every character of the decimal rendering is a digit. -/
theorem decimalAux_digits (fuel : Nat) :
    ∀ n, ∀ c ∈ SipGatewayJs.decimalAux fuel n, c.isDigit = true := by
  induction fuel with
  | zero =>
    intro n c hc
    simp [SipGatewayJs.decimalAux] at hc
  | succ f ih =>
    intro n c hc
    unfold SipGatewayJs.decimalAux at hc
    split at hc
    · next h =>
      simp at hc
      rw [hc]
      exact digitChar_isDigit n h
    · next h =>
      rw [List.mem_append] at hc
      rcases hc with hc | hc
      · exact ih (n / 10) c hc
      · simp at hc
        rw [hc]
        exact digitChar_isDigit _ (Nat.mod_lt _ (by omega))

/-- Hex-digit lookup stays inside the hex alphabet. -/
theorem getD_hexDigitChars_mem (i : Nat) (h : i < 16) :
    SipGatewayJs.isHexChar (SipGatewayJs.hexDigitChars.getD i '0') = true := by
  interval_cases i <;> decide

/-- The hex rendering of a byte list has two characters per byte. -/
theorem bytesToHex_length (bs : List Nat) :
    (SipGatewayJs.bytesToHex bs).length = 2 * bs.length := by
  unfold SipGatewayJs.bytesToHex
  show ((bs.map SipGatewayJs.byteToHex).flatten).length = 2 * bs.length
  induction bs with
  | nil => simp
  | cons b tl ih =>
    simp only [List.map_cons, List.flatten_cons, List.length_append, ih,
      List.length_cons]
    simp [SipGatewayJs.byteToHex]
    omega

/-- Every character of the hex rendering is a lowercase hex digit. -/
theorem bytesToHex_hex (bs : List Nat) :
    ∀ c ∈ (SipGatewayJs.bytesToHex bs).toList, SipGatewayJs.isHexChar c = true := by
  intro c hc
  have hc' : c ∈ (bs.map SipGatewayJs.byteToHex).flatten := hc
  rw [List.mem_flatten] at hc'
  rcases hc' with ⟨l, hl, hcl⟩
  rw [List.mem_map] at hl
  rcases hl with ⟨b, _, rfl⟩
  unfold SipGatewayJs.byteToHex at hcl
  rcases List.mem_cons.mp hcl with rfl | hcl
  · exact getD_hexDigitChars_mem _ (Nat.mod_lt _ (by omega))
  · rcases List.mem_cons.mp hcl with rfl | hcl
    · exact getD_hexDigitChars_mem _ (Nat.mod_lt _ (by omega))
    · simp at hcl

/-- C8 counterexample.  `generateCallId` builds the local part from the
decimal clock reading and a decimal random below 10^6 — for the concrete
draw below it has 19 characters, not 32 — and `generateTag` renders 6 random
bytes, giving 12 hex characters, not 16. -/
theorem generateCallId_not_32_hex :
    SipGatewayJs.generateCallId 1700000000000 123456 "10.0.0.1" =
      "1700000000000123456@10.0.0.1" ∧
    ¬ (((SipGatewayJs.generateCallId 1700000000000 123456 "10.0.0.1").toList.takeWhile
        fun c => !(c == '@')).length = 32) ∧
    (SipGatewayJs.generateTag [171, 205, 239, 1, 35, 69]).length = 12 ∧
    ¬ ((SipGatewayJs.generateTag [171, 205, 239, 1, 35, 69]).length = 16) := by
  decide

/-- C8 (amended).  Call identifiers are `<decimal clock
reading><decimal random draw>@<advertised address>` — decimal, not 32 hex
characters; tags are 12 lowercase hex characters (6 random bytes); branches
are exactly as claimed, `z9hG4bK` followed by 32 lowercase hex characters
(16 random bytes). -/
theorem identifier_formats_amended :
    (∀ nowMs rand : Nat, ∀ ip : String,
      SipGatewayJs.generateCallId nowMs rand ip =
        (SipGatewayJs.decimalChars nowMs ++ SipGatewayJs.decimalChars rand).asString
          ++ "@" ++ ip ∧
      ∀ c ∈ SipGatewayJs.decimalChars nowMs ++ SipGatewayJs.decimalChars rand,
        c.isDigit = true) ∧
    (∀ bytes : List Nat, bytes.length = 6 →
      (SipGatewayJs.generateTag bytes).length = 12 ∧
      ∀ c ∈ (SipGatewayJs.generateTag bytes).toList,
        SipGatewayJs.isHexChar c = true) ∧
    (∀ bytes : List Nat, bytes.length = 16 →
      SipGatewayJs.generateBranch bytes = "z9hG4bK" ++ SipGatewayJs.bytesToHex bytes ∧
      (SipGatewayJs.bytesToHex bytes).length = 32 ∧
      ∀ c ∈ (SipGatewayJs.bytesToHex bytes).toList,
        SipGatewayJs.isHexChar c = true) := by
  refine ⟨?_, ?_, ?_⟩
  · intro nowMs rand ip
    constructor
    · show (SipGatewayJs.decimalChars nowMs).asString ++
        (SipGatewayJs.decimalChars rand).asString ++ "@" ++ ip = _
      have h : ∀ l1 l2 : List Char,
          (l1 ++ l2).asString = l1.asString ++ l2.asString := by
        intro l1 l2
        rfl
      rw [h]
    · intro c hc
      rcases List.mem_append.mp hc with hc | hc
      · exact decimalAux_digits _ _ c hc
      · exact decimalAux_digits _ _ c hc
  · intro bytes hlen
    refine ⟨?_, bytesToHex_hex bytes⟩
    rw [show SipGatewayJs.generateTag bytes = SipGatewayJs.bytesToHex bytes from rfl,
      bytesToHex_length, hlen]
  · intro bytes hlen
    refine ⟨rfl, ?_, bytesToHex_hex bytes⟩
    rw [bytesToHex_length, hlen]

/-- Witness for C8 at a concrete clock reading, random draw and byte lists. -/
theorem identifier_formats_amended_witness :
    (SipGatewayJs.generateCallId 1711111111111 424242 "192.168.1.10" =
        (SipGatewayJs.decimalChars 1711111111111 ++
          SipGatewayJs.decimalChars 424242).asString ++ "@" ++ "192.168.1.10" ∧
      ∀ c ∈ SipGatewayJs.decimalChars 1711111111111 ++
          SipGatewayJs.decimalChars 424242, c.isDigit = true) ∧
    ((SipGatewayJs.generateTag [1, 2, 3, 4, 5, 6]).length = 12 ∧
      ∀ c ∈ (SipGatewayJs.generateTag [1, 2, 3, 4, 5, 6]).toList,
        SipGatewayJs.isHexChar c = true) ∧
    (SipGatewayJs.generateBranch [0, 1, 2, 3, 4, 5, 6, 7, 8, 9, 10, 11, 12, 13, 14, 15] =
        "z9hG4bK" ++ SipGatewayJs.bytesToHex
          [0, 1, 2, 3, 4, 5, 6, 7, 8, 9, 10, 11, 12, 13, 14, 15] ∧
      (SipGatewayJs.bytesToHex
        [0, 1, 2, 3, 4, 5, 6, 7, 8, 9, 10, 11, 12, 13, 14, 15]).length = 32 ∧
      ∀ c ∈ (SipGatewayJs.bytesToHex
          [0, 1, 2, 3, 4, 5, 6, 7, 8, 9, 10, 11, 12, 13, 14, 15]).toList,
        SipGatewayJs.isHexChar c = true) :=
  ⟨identifier_formats_amended.1 1711111111111 424242 "192.168.1.10",
    identifier_formats_amended.2.1 [1, 2, 3, 4, 5, 6] (by decide),
    identifier_formats_amended.2.2 [0, 1, 2, 3, 4, 5, 6, 7, 8, 9, 10, 11, 12, 13, 14, 15]
      (by decide)⟩

/-! ### C9 — media-relay retry policy -/

/-- C9 counterexample.  The backoff between attempts is `100 · (i + 1)`
milliseconds — 0.1, 0.2 seconds — not the claimed `1 · i` seconds (1000,
2000 milliseconds): with an operation that always fails, the sleeps are
`[100, 200]`. -/
theorem retry_backoff_counterexample :
    (SipGatewayJs.rtpengineOperationWithRetry
        (fun _ => (Except.error "relay down" : Except String Nat)) 3).waits =
      [100, 200] ∧
    ¬ ((SipGatewayJs.rtpengineOperationWithRetry
        (fun _ => (Except.error "relay down" : Except String Nat)) 3).waits =
      [1000, 2000]) := by
  decide

/-- C9 (amended).  `rtpengineOperationWithRetry` at its default of 3 retries
runs the wrapped operation at most 3 times, sleeps `100 · i` milliseconds
(0.1 · i seconds) between attempt `i` and attempt `i + 1`, propagates the
third failure, and returns immediately on a first-attempt success. -/
theorem retry_bounded_attempts_amended {α : Type} (op : Nat → Except String α) :
    (SipGatewayJs.rtpengineOperationWithRetry op 3).attempts ≤ 3 ∧
    (SipGatewayJs.rtpengineOperationWithRetry op 3).waits =
      (List.range ((SipGatewayJs.rtpengineOperationWithRetry op 3).attempts - 1)).map
        (fun j => 100 * (j + 1)) ∧
    (∀ e0 e1 e2, op 0 = Except.error e0 → op 1 = Except.error e1 →
      op 2 = Except.error e2 →
      (SipGatewayJs.rtpengineOperationWithRetry op 3).result =
        some (Except.error e2) ∧
      (SipGatewayJs.rtpengineOperationWithRetry op 3).attempts = 3) ∧
    (∀ a, op 0 = Except.ok a →
      (SipGatewayJs.rtpengineOperationWithRetry op 3).result =
        some (Except.ok a) ∧
      (SipGatewayJs.rtpengineOperationWithRetry op 3).attempts = 1) := by
  unfold SipGatewayJs.rtpengineOperationWithRetry
  cases h0 : op 0 with
  | ok a0 => simp [SipGatewayJs.retryGo, h0, List.range_succ]
  | error e0 =>
    cases h1 : op 1 with
    | ok a1 => simp [SipGatewayJs.retryGo, h0, h1, List.range_succ]
    | error e1 =>
      cases h2 : op 2 with
      | ok a2 => simp [SipGatewayJs.retryGo, h0, h1, h2, List.range_succ]
      | error e2 => simp [SipGatewayJs.retryGo, h0, h1, h2, List.range_succ]

/-- Witness for C9: the always-failing operation, discharging the
failure-path hypotheses concretely. -/
theorem retry_bounded_attempts_amended_witness :
    ((SipGatewayJs.rtpengineOperationWithRetry
        (fun _ => (Except.error "relay down" : Except String Nat)) 3).attempts ≤ 3) ∧
    ((SipGatewayJs.rtpengineOperationWithRetry
        (fun _ => (Except.error "relay down" : Except String Nat)) 3).result =
        some (Except.error "relay down") ∧
      (SipGatewayJs.rtpengineOperationWithRetry
        (fun _ => (Except.error "relay down" : Except String Nat)) 3).attempts = 3) :=
  ⟨(retry_bounded_attempts_amended
      (fun _ => (Except.error "relay down" : Except String Nat))).1,
    (retry_bounded_attempts_amended
      (fun _ => (Except.error "relay down" : Except String Nat))).2.2.1
      "relay down" "relay down" "relay down" rfl rfl rfl⟩

end SipSpec

